import Mathlib

/-!
# Verification of `custom_components/cardata/device_tracker.py`

Shallow embedding of the BMW CarData device-tracker platform module.
The external coordinator is visible to this module only through a narrow
read interface (`get_state`, `iter_descriptors`); we model its observable
state as a finite association table of cached readings plus the list of
(vin, descriptor) pairs its enumeration yields.
-/

set_option autoImplicit false

namespace Cardata

/-- A Python value stored in a coordinator state.  `float()` coercion
succeeds on numbers and on strings that parse as decimals, and fails
(`ValueError`/`TypeError`) otherwise; `pyOther` stands for any
non-numeric, non-string object. -/
inductive PyValue where
  | pyNum (q : ℚ)
  | pyStr (s : String)
  | pyOther
deriving DecidableEq, Repr

/-- Accumulate a digit string into a natural number; `none` when a
non-digit occurs. -/
def digitsVal (l : List Char) : Option Nat :=
  l.foldlM (fun acc c => if c.isDigit then some (acc * 10 + (c.toNat - 48)) else none) 0

/-- Modelled from the spec: the Python built-in `float()` applied to a
string (the builtin itself is outside this repository).  The spec's only
error case is "numeric coercion of a stored coordinate value fails"; we
model the coercion as parsing an optionally signed decimal literal,
returning `none` exactly when coercion fails. -/
def parseFloat? (s : String) : Option ℚ :=
  match s.data with
  | [] => none
  | cs =>
    let signed : Int × List Char :=
      match cs with
      | '-' :: r => (-1, r)
      | '+' :: r => (1, r)
      | r => (1, r)
    let ip := signed.2.takeWhile (fun c => c ≠ '.')
    let rest := signed.2.dropWhile (fun c => c ≠ '.')
    match rest with
    | [] =>
      if ip = [] then none
      else (digitsVal ip).map (fun n => (signed.1 : ℚ) * (n : ℚ))
    | _ :: fp =>
      if ip = [] ∧ fp = [] then none
      else
        match digitsVal ip, digitsVal fp with
        | some i, some f =>
          some ((signed.1 : ℚ) * ((i : ℚ) + (f : ℚ) / ((10 : ℚ) ^ fp.length)))
        | _, _ => none

/-- Modelled from the spec: Python `float(value)` over the stored value,
total as an `Option`: `none` models the `(ValueError, TypeError)` branch. -/
def pyFloat? : PyValue → Option ℚ
  | .pyNum q => some q
  | .pyStr s => parseFloat? s
  | .pyOther => none

/-- A coordinator state object: the only attribute this module reads is
`value`. -/
structure CardataState where
  value : Option PyValue
deriving DecidableEq, Repr

/-- Modelled from the spec: the coordinator's observable read interface.
`states` backs `get_state(vin, descriptor)` (first matching entry), and
`descriptors` is the sequence `iter_descriptors(binary=False)` yields. -/
structure Coordinator where
  states : List (String × String × CardataState)
  descriptors : List (String × String)
deriving DecidableEq, Repr

/-- `coordinator.get_state(vin, descriptor)`: the cached reading, or
absence. -/
def Coordinator.get_state (c : Coordinator) (vin descriptor : String) :
    Option CardataState :=
  (c.states.find? (fun e => e.1 == vin && e.2.1 == descriptor)).map (fun e => e.2.2)

def LATITUDE_DESCRIPTOR : String :=
  "vehicle.cabin.infotainment.navigation.currentLocation.latitude"

def LONGITUDE_DESCRIPTOR : String :=
  "vehicle.cabin.infotainment.navigation.currentLocation.longitude"

def HEADING_DESCRIPTOR : String :=
  "vehicle.cabin.infotainment.navigation.currentLocation.heading"

def GPS_FIX_STATUS_DESCRIPTOR : String :=
  "vehicle.cabin.infotainment.navigation.currentLocation.fixStatus"

/-- The loop body of `async_setup_entry`: walk the pairs yielded by
`iter_descriptors`, keep a `vins_processed` list, and append a tracker
(identified here by its VIN) whenever the VIN is new and has a latitude
or longitude state. -/
def setupLoop (c : Coordinator) :
    List (String × String) → List String → List String → List String
  | [], _, entities => entities
  | (vin, _) :: rest, processed, entities =>
    if vin ∈ processed then
      setupLoop c rest processed entities
    else
      let latS := c.get_state vin LATITUDE_DESCRIPTOR
      let lonS := c.get_state vin LONGITUDE_DESCRIPTOR
      if latS.isSome || lonS.isSome then
        setupLoop c rest (processed ++ [vin]) (entities ++ [vin])
      else
        setupLoop c rest (processed ++ [vin]) entities

/-- `async_setup_entry`: the VINs of the tracker entities passed to
`async_add_entities` (in creation order). -/
def async_setup_entry (c : Coordinator) : List String :=
  setupLoop c c.descriptors [] []

/-- `BMWCarDataDeviceTracker.latitude`. -/
def latitude (c : Coordinator) (vin : String) : Option ℚ :=
  match c.get_state vin LATITUDE_DESCRIPTOR with
  | some lat_state =>
    match lat_state.value with
    | some v => pyFloat? v
    | none => none
  | none => none

/-- `BMWCarDataDeviceTracker.longitude`. -/
def longitude (c : Coordinator) (vin : String) : Option ℚ :=
  match c.get_state vin LONGITUDE_DESCRIPTOR with
  | some lon_state =>
    match lon_state.value with
    | some v => pyFloat? v
    | none => none
  | none => none

/-- `BMWCarDataDeviceTracker.available`. -/
def available (c : Coordinator) (vin : String) : Bool :=
  let lat := latitude c vin
  let lon := longitude c vin
  let avail := lat.isSome || lon.isSome
  match c.get_state vin GPS_FIX_STATUS_DESCRIPTOR with
  | some gps_fix_state =>
    if gps_fix_state.value = some (PyValue.pyStr "NO_FIX") then false else avail
  | none => avail

/-- `BMWCarDataDeviceTracker._handle_update`: `true` iff
`schedule_update_ha_state` is reached for the event `(vin, descriptor)`
on a tracker whose own VIN is `selfVin`. -/
def handle_update (selfVin vin descriptor : String) : Bool :=
  if vin ≠ selfVin then false
  else if descriptor ∉ [LATITUDE_DESCRIPTOR, LONGITUDE_DESCRIPTOR,
      HEADING_DESCRIPTOR, GPS_FIX_STATUS_DESCRIPTOR] then false
  else true

/-- Python `dict` assignment `d[k] = v` on an insertion-ordered
association list: overwrite in place when the key exists, append
otherwise. -/
def dictSet (d : List (String × PyValue)) (k : String) (v : PyValue) :
    List (String × PyValue) :=
  if d.any (fun e => e.1 == k) then
    d.map (fun e => if e.1 == k then (e.1, v) else e)
  else d ++ [(k, v)]

/-- One conditional attribute assignment of `extra_state_attributes`:
`X_state = get_state(...)`, then `attrs[k] = X_state.value` when the
state exists and its value is not `None`. -/
def attrStep (attrs : List (String × PyValue)) (st : Option CardataState)
    (k : String) : List (String × PyValue) :=
  match st with
  | some s =>
    match s.value with
    | some v => dictSet attrs k v
    | none => attrs
  | none => attrs

/-- `BMWCarDataDeviceTracker.extra_state_attributes`; `base` is the
dictionary returned by `super().extra_state_attributes` (owned by the
external `CardataEntity` base class): first the heading is added under
`"direction"`, then the GPS fix status under `"gps_accuracy"`. -/
def extra_state_attributes (base : List (String × PyValue)) (c : Coordinator)
    (vin : String) : List (String × PyValue) :=
  attrStep (attrStep base (c.get_state vin HEADING_DESCRIPTOR) "direction")
    (c.get_state vin GPS_FIX_STATUS_DESCRIPTOR) "gps_accuracy"

/-- Python `d.get(k)` on the association-list dictionary. -/
def dictGet (d : List (String × PyValue)) (k : String) : Option PyValue :=
  (d.find? (fun e => e.1 == k)).map (fun e => e.2)

/-- The host platform's source-type marker enumeration (only the
constant this module uses matters). -/
inductive SourceType where
  | gps
  | router
  | bluetooth
deriving DecidableEq, Repr

/-- `BMWCarDataDeviceTracker.source_type` (the arguments record that the
property ignores the coordinator state and the VIN). -/
def source_type (_c : Coordinator) (_vin : String) : SourceType :=
  SourceType.gps

/-- The mutable per-entity fields of `BMWCarDataDeviceTracker` relevant
to the subscription lifecycle; `unsubscribe` holds the handle returned by
`async_dispatcher_connect`, identified by a token. -/
structure Tracker where
  vin : String
  unique_id : String
  unsubscribe : Option Nat
deriving DecidableEq, Repr

/-- `BMWCarDataDeviceTracker.__init__`: sets the unique id to
`f"{vin}_location"` and `_unsubscribe` to `None`. -/
def mkTracker (vin : String) : Tracker :=
  { vin := vin, unique_id := vin ++ "_location", unsubscribe := none }

/-- `BMWCarDataDeviceTracker.async_added_to_hass`: stores the
subscription handle obtained from `async_dispatcher_connect`. -/
def async_added_to_hass (t : Tracker) (handle : Nat) : Tracker :=
  { t with unsubscribe := some handle }

/-- `BMWCarDataDeviceTracker.async_will_remove_from_hass`: the list of
unsubscribe handles invoked during removal. -/
def async_will_remove_from_hass (t : Tracker) : List Nat :=
  match t.unsubscribe with
  | some u => [u]
  | none => []

end Cardata

namespace Cardata

/-- C8: `source_type` returns the GPS marker for every coordinator state
and every VIN. -/
theorem source_type_is_gps (c : Coordinator) (vin : String) :
    source_type c vin = SourceType.gps := rfl

/-- C4: the update handler schedules a state refresh exactly when the
event's VIN equals the tracker's own VIN and the descriptor is one of
the four location descriptors. -/
theorem handle_update_iff (selfVin vin descriptor : String) :
    handle_update selfVin vin descriptor = true ↔
      vin = selfVin ∧
        descriptor ∈ [LATITUDE_DESCRIPTOR, LONGITUDE_DESCRIPTOR,
          HEADING_DESCRIPTOR, GPS_FIX_STATUS_DESCRIPTOR] := by
  unfold handle_update
  by_cases hv : vin = selfVin <;> by_cases hd :
      descriptor ∈ [LATITUDE_DESCRIPTOR, LONGITUDE_DESCRIPTOR,
        HEADING_DESCRIPTOR, GPS_FIX_STATUS_DESCRIPTOR] <;>
    simp [hv, hd]

/-- C7: on removal, a stored subscription handle is invoked exactly once,
and a tracker whose handle was never stored (as left by `__init__`)
invokes nothing. -/
theorem will_remove_unsubscribes (t : Tracker) (h : Nat) :
    (t.unsubscribe = some h → async_will_remove_from_hass t = [h]) ∧
      (t.unsubscribe = none → async_will_remove_from_hass t = []) := by
  constructor
  · intro hs
    simp [async_will_remove_from_hass, hs]
  · intro hn
    simp [async_will_remove_from_hass, hn]

/-- Witness for C7: a tracker that stored handle `5` when added invokes
exactly `[5]` on removal, and a freshly constructed tracker invokes
nothing. -/
theorem will_remove_unsubscribes_witness :
    async_will_remove_from_hass (async_added_to_hass (mkTracker "WBA123") 5) = [5] ∧
      async_will_remove_from_hass (mkTracker "WBA123") = [] :=
  ⟨(will_remove_unsubscribes (async_added_to_hass (mkTracker "WBA123") 5) 5).1 rfl,
    (will_remove_unsubscribes (mkTracker "WBA123") 5).2 rfl⟩

/-- C10: the unique identifier assigned by the constructor is
`vin ++ "_location"`, and this map is injective: distinct VINs yield
distinct unique IDs, and the unique ID determines the VIN. -/
theorem unique_id_injective (v1 v2 : String) :
    (mkTracker v1).unique_id = v1 ++ "_location" ∧
      ((mkTracker v1).unique_id = (mkTracker v2).unique_id → v1 = v2) := by
  refine ⟨rfl, ?_⟩
  intro h
  have hd : v1.data ++ "_location".data = v2.data ++ "_location".data := by
    simpa [mkTracker, String.append] using congrArg String.data h
  exact String.ext (List.append_cancel_right hd)

/-- Witness for C10: applying the injectivity direction at a concrete
point. -/
theorem unique_id_injective_witness :
    (mkTracker "WBA999").unique_id = "WBA999" ++ "_location" ∧ "WBA999" = "WBA999" :=
  ⟨(unique_id_injective "WBA999" "WBA999").1,
    (unique_id_injective "WBA999" "WBA999").2 rfl⟩

/-- C1: the tracker is available iff at least one of the `latitude` /
`longitude` properties returns a value and the stored GPS fix-status
reading does not explicitly report `"NO_FIX"`; in particular a `"NO_FIX"`
status forces availability to false even when both coordinates are
present. -/
theorem available_iff (c : Coordinator) (vin : String) :
    available c vin = true ↔
      ((latitude c vin ≠ none ∨ longitude c vin ≠ none) ∧
        ¬ ∃ st, c.get_state vin GPS_FIX_STATUS_DESCRIPTOR = some st ∧
          st.value = some (PyValue.pyStr "NO_FIX")) := by
  unfold available
  cases hg : c.get_state vin GPS_FIX_STATUS_DESCRIPTOR with
  | none =>
    simp [hg, Option.isSome_iff_ne_none]
  | some st =>
    by_cases hv : st.value = some (PyValue.pyStr "NO_FIX") <;>
      simp [hg, hv, Option.isSome_iff_ne_none]

/-- C2: when the stored latitude (resp. longitude) state holds a value
that cannot be coerced to a number, the corresponding property returns
`None` (the `(ValueError, TypeError)` branch is caught, so the failure
does not propagate). -/
theorem coordinate_none_on_bad_value (c : Coordinator) (vin : String)
    (stLat stLon : CardataState) (vLat vLon : PyValue) :
    (c.get_state vin LATITUDE_DESCRIPTOR = some stLat →
      stLat.value = some vLat → pyFloat? vLat = none → latitude c vin = none) ∧
      (c.get_state vin LONGITUDE_DESCRIPTOR = some stLon →
        stLon.value = some vLon → pyFloat? vLon = none → longitude c vin = none) := by
  constructor
  · intro hs hv hb
    simp [latitude, hs, hv, hb]
  · intro hs hv hb
    simp [longitude, hs, hv, hb]

/-- A coordinator whose only vehicle stores non-numeric values in both
coordinate states. -/
def coordBadValues : Coordinator :=
  { states :=
      [("WBA2", LATITUDE_DESCRIPTOR, { value := some PyValue.pyOther }),
        ("WBA2", LONGITUDE_DESCRIPTOR, { value := some (PyValue.pyStr "oops") })],
    descriptors := [("WBA2", LATITUDE_DESCRIPTOR)] }

/-- Witness for C2: on `coordBadValues` both coordinate properties
return `none`. -/
theorem coordinate_none_on_bad_value_witness :
    latitude coordBadValues "WBA2" = none ∧ longitude coordBadValues "WBA2" = none :=
  ⟨(coordinate_none_on_bad_value coordBadValues "WBA2"
        { value := some PyValue.pyOther } { value := some (PyValue.pyStr "oops") }
        PyValue.pyOther (PyValue.pyStr "oops")).1 rfl rfl rfl,
    (coordinate_none_on_bad_value coordBadValues "WBA2"
        { value := some PyValue.pyOther } { value := some (PyValue.pyStr "oops") }
        PyValue.pyOther (PyValue.pyStr "oops")).2 rfl rfl rfl⟩

/-- A coordinator whose only vehicle has a latitude state object whose
value is `None`. -/
def coordValueNone : Coordinator :=
  { states := [("WBA9", LATITUDE_DESCRIPTOR, { value := none })],
    descriptors := [("WBA9", LATITUDE_DESCRIPTOR)] }

/-- C9: setup's creation filter is weaker than availability: there is a
coordinator state for which setup creates a tracker whose `latitude` and
`longitude` both return `None` and whose `available` is false. -/
theorem setup_filter_weaker_than_available :
    ∃ (c : Coordinator) (vin : String),
      vin ∈ async_setup_entry c ∧ latitude c vin = none ∧
        longitude c vin = none ∧ available c vin = false := by
  refine ⟨coordValueNone, "WBA9", ?_, rfl, rfl, rfl⟩
  have : async_setup_entry coordValueNone = ["WBA9"] := rfl
  rw [this]
  exact List.mem_singleton.mpr rfl

/-- Membership in the setup loop's result: a VIN is emitted iff it was
already in the accumulator, or it is not yet processed, occurs in the
remaining pairs, and has a latitude or longitude state. -/
theorem setupLoop_mem (c : Coordinator) (pairs : List (String × String)) :
    ∀ (processed entities : List String) (v : String),
      v ∈ setupLoop c pairs processed entities ↔
        v ∈ entities ∨ (v ∉ processed ∧ (∃ d, (v, d) ∈ pairs) ∧
          ((c.get_state v LATITUDE_DESCRIPTOR).isSome = true ∨
            (c.get_state v LONGITUDE_DESCRIPTOR).isSome = true)) := by
  induction pairs with
  | nil =>
    intro processed entities v
    simp [setupLoop]
  | cons p rest ih =>
    intro processed entities v
    obtain ⟨vin, d⟩ := p
    rw [setupLoop]
    by_cases hp : vin ∈ processed
    · rw [if_pos hp, ih]
      constructor
      · rintro (h | ⟨hnp, ⟨d1, hd1⟩, hc⟩)
        · exact Or.inl h
        · exact Or.inr ⟨hnp, ⟨d1, List.mem_cons_of_mem _ hd1⟩, hc⟩
      · rintro (h | ⟨hnp, ⟨d1, hd1⟩, hc⟩)
        · exact Or.inl h
        · rcases List.mem_cons.mp hd1 with he | hm
          · rw [Prod.mk.injEq] at he
            exact absurd (he.1 ▸ hp) hnp
          · exact Or.inr ⟨hnp, ⟨d1, hm⟩, hc⟩
    · rw [if_neg hp]
      by_cases hc : ((c.get_state vin LATITUDE_DESCRIPTOR).isSome ||
          (c.get_state vin LONGITUDE_DESCRIPTOR).isSome) = true
      · rw [if_pos hc, ih]
        by_cases hveq : v = vin
        · subst hveq
          simp only [List.mem_append, List.mem_singleton, or_true, true_or, true_iff]
          exact Or.inr ⟨hp, ⟨d, List.mem_cons_self _ _⟩, Bool.or_eq_true_iff.mp hc⟩
        · constructor
          · rintro (h | ⟨hnp, ⟨d1, hd1⟩, hcv⟩)
            · rcases List.mem_append.mp h with h1 | h1
              · exact Or.inl h1
              · exact absurd (List.mem_singleton.mp h1) hveq
            · refine Or.inr ⟨fun hmem => hnp (List.mem_append_left _ hmem),
                ⟨d1, List.mem_cons_of_mem _ hd1⟩, hcv⟩
          · rintro (h | ⟨hnp, ⟨d1, hd1⟩, hcv⟩)
            · exact Or.inl (List.mem_append_left _ h)
            · rcases List.mem_cons.mp hd1 with he | hm
              · rw [Prod.mk.injEq] at he
                exact absurd he.1 hveq
              · refine Or.inr ⟨?_, ⟨d1, hm⟩, hcv⟩
                intro hmem
                rcases List.mem_append.mp hmem with h1 | h1
                · exact hnp h1
                · exact hveq (List.mem_singleton.mp h1)
      · rw [if_neg hc, ih]
        have hcfalse : ¬ ((c.get_state vin LATITUDE_DESCRIPTOR).isSome = true ∨
            (c.get_state vin LONGITUDE_DESCRIPTOR).isSome = true) := by
          intro h
          exact hc (Bool.or_eq_true_iff.mpr h)
        by_cases hveq : v = vin
        · subst hveq
          constructor
          · rintro (h | ⟨hnp, _, hcv⟩)
            · exact Or.inl h
            · exact absurd (List.mem_append_right _ (List.mem_singleton.mpr rfl)) hnp
          · rintro (h | ⟨_, _, hcv⟩)
            · exact Or.inl h
            · exact absurd hcv hcfalse
        · constructor
          · rintro (h | ⟨hnp, ⟨d1, hd1⟩, hcv⟩)
            · exact Or.inl h
            · refine Or.inr ⟨fun hmem => hnp (List.mem_append_left _ hmem),
                ⟨d1, List.mem_cons_of_mem _ hd1⟩, hcv⟩
          · rintro (h | ⟨hnp, ⟨d1, hd1⟩, hcv⟩)
            · exact Or.inl h
            · rcases List.mem_cons.mp hd1 with he | hm
              · rw [Prod.mk.injEq] at he
                exact absurd he.1 hveq
              · refine Or.inr ⟨?_, ⟨d1, hm⟩, hcv⟩
                intro hmem
                rcases List.mem_append.mp hmem with h1 | h1
                · exact hnp h1
                · exact hveq (List.mem_singleton.mp h1)

/-- The setup loop never emits a VIN twice, as long as the accumulator
is duplicate-free and contained in the processed list. -/
theorem setupLoop_nodup (c : Coordinator) (pairs : List (String × String)) :
    ∀ (processed entities : List String),
      (∀ v ∈ entities, v ∈ processed) → entities.Nodup →
        (setupLoop c pairs processed entities).Nodup := by
  induction pairs with
  | nil =>
    intro processed entities _ hnd
    simpa [setupLoop] using hnd
  | cons p rest ih =>
    intro processed entities hsub hnd
    obtain ⟨vin, d⟩ := p
    rw [setupLoop]
    by_cases hp : vin ∈ processed
    · rw [if_pos hp]
      exact ih processed entities hsub hnd
    · rw [if_neg hp]
      by_cases hc : ((c.get_state vin LATITUDE_DESCRIPTOR).isSome ||
          (c.get_state vin LONGITUDE_DESCRIPTOR).isSome) = true
      · rw [if_pos hc]
        refine ih (processed ++ [vin]) (entities ++ [vin]) ?_ ?_
        · intro v hv
          rcases List.mem_append.mp hv with h1 | h1
          · exact List.mem_append_left _ (hsub v h1)
          · exact List.mem_append_right _ h1
        · rw [List.nodup_append]
          refine ⟨hnd, List.nodup_singleton vin, ?_⟩
          intro v hv hv1
          rw [List.mem_singleton] at hv1
          exact hp (hv1 ▸ hsub v hv)
      · rw [if_neg hc]
        refine ih (processed ++ [vin]) entities ?_ hnd
        intro v hv
        exact List.mem_append_left _ (hsub v hv)

/-- C5: setup emits no VIN twice (duplicate enumeration entries are
skipped), and emits a VIN exactly when it occurs in the enumeration and
has a latitude or longitude state. -/
theorem setup_one_entity_per_vin (c : Coordinator) :
    (async_setup_entry c).Nodup ∧
      ∀ vin, vin ∈ async_setup_entry c ↔
        (∃ d, (vin, d) ∈ c.descriptors) ∧
          ((c.get_state vin LATITUDE_DESCRIPTOR).isSome = true ∨
            (c.get_state vin LONGITUDE_DESCRIPTOR).isSome = true) := by
  constructor
  · exact setupLoop_nodup c c.descriptors [] [] (by simp) List.nodup_nil
  · intro vin
    rw [async_setup_entry, setupLoop_mem]
    simp

/-- C3: a VIN for which both the latitude and the longitude lookup
return absence gets no tracker entity during setup. -/
theorem setup_skips_vin_without_coordinates (c : Coordinator) (vin : String)
    (hlat : c.get_state vin LATITUDE_DESCRIPTOR = none)
    (hlon : c.get_state vin LONGITUDE_DESCRIPTOR = none) :
    vin ∉ async_setup_entry c := by
  rw [async_setup_entry, setupLoop_mem]
  simp [hlat, hlon]

/-- A coordinator that enumerates a VIN but caches no state at all. -/
def coordNoStates : Coordinator :=
  { states := [], descriptors := [("WBA3", HEADING_DESCRIPTOR)] }

/-- Witness for C3: the enumerated VIN of `coordNoStates` has no
coordinate states and is excluded from setup's entity list. -/
theorem setup_skips_vin_without_coordinates_witness :
    Coordinator.get_state coordNoStates "WBA3" LATITUDE_DESCRIPTOR = none ∧
      Coordinator.get_state coordNoStates "WBA3" LONGITUDE_DESCRIPTOR = none ∧
      "WBA3" ∉ async_setup_entry coordNoStates :=
  ⟨rfl, rfl, setup_skips_vin_without_coordinates coordNoStates "WBA3" rfl rfl⟩

theorem dictGet_eq_none_of_keys (l : List (String × PyValue)) (k : String)
    (h : ∀ e ∈ l, e.1 ≠ k) : dictGet l k = none := by
  unfold dictGet
  rw [List.find?_eq_none.mpr]
  · rfl
  · intro x hx
    simpa using h x hx

theorem dictSet_eq_append (l : List (String × PyValue)) (k : String) (v : PyValue)
    (h : ∀ e ∈ l, e.1 ≠ k) : dictSet l k v = l ++ [(k, v)] := by
  have ha : ¬ (l.any (fun e => e.1 == k) = true) := by
    rw [List.any_eq_true]
    rintro ⟨x, hx, hxk⟩
    exact h x hx (by simpa using hxk)
  unfold dictSet
  rw [if_neg ha]

theorem dictGet_append_self (l : List (String × PyValue)) (k : String) (v : PyValue)
    (h : ∀ e ∈ l, e.1 ≠ k) : dictGet (l ++ [(k, v)]) k = some v := by
  unfold dictGet
  rw [List.find?_append, List.find?_eq_none.mpr, Option.none_or]
  · simp
  · intro x hx
    simpa using h x hx

theorem dictGet_append_ne (l : List (String × PyValue)) (kNew kQ : String)
    (v : PyValue) (h : kNew ≠ kQ) :
    dictGet (l ++ [(kNew, v)]) kQ = dictGet l kQ := by
  unfold dictGet
  rw [List.find?_append]
  have hs : [(kNew, v)].find? (fun e => e.1 == kQ) = none := by
    simp [h]
  rw [hs, Option.or_none]

theorem dictGet_cons (a : String) (b : PyValue) (l : List (String × PyValue))
    (k : String) :
    dictGet ((a, b) :: l) k = if a = k then some b else dictGet l k := by
  by_cases hx : a = k
  · rw [if_pos hx]
    unfold dictGet
    rw [List.find?_cons_of_pos _ (by simpa using hx)]
    rfl
  · rw [if_neg hx]
    unfold dictGet
    rw [List.find?_cons_of_neg _ (by simpa using hx)]

theorem dictGet_map_set_ne (l : List (String × PyValue)) (k kQ : String)
    (v : PyValue) (h : k ≠ kQ) :
    dictGet (l.map (fun e => if e.1 == k then (e.1, v) else e)) kQ = dictGet l kQ := by
  induction l with
  | nil => rfl
  | cons e rest ih =>
    obtain ⟨a, b⟩ := e
    rw [List.map_cons]
    dsimp only
    by_cases he : a = k
    · rw [if_pos (show (a == k) = true by simpa using he), dictGet_cons, dictGet_cons]
      have h2 : ¬ a = kQ := fun hq => h (he ▸ hq)
      rw [if_neg h2, if_neg h2, ih]
    · rw [if_neg (show ¬ (a == k) = true by simpa using he), dictGet_cons,
        dictGet_cons, ih]

theorem dictGet_dictSet_ne (l : List (String × PyValue)) (k kQ : String)
    (v : PyValue) (h : k ≠ kQ) :
    dictGet (dictSet l k v) kQ = dictGet l kQ := by
  unfold dictSet
  by_cases ha : l.any (fun e => e.1 == k) = true
  · rw [if_pos ha]
    exact dictGet_map_set_ne l k kQ v h
  · rw [if_neg ha]
    exact dictGet_append_ne l k kQ v h

theorem dictGet_attrStep_self (attrs : List (String × PyValue))
    (st : Option CardataState) (k : String) (h : ∀ e ∈ attrs, e.1 ≠ k) :
    dictGet (attrStep attrs st k) k = st.bind CardataState.value := by
  cases st with
  | none => simpa [attrStep] using dictGet_eq_none_of_keys attrs k h
  | some s =>
    cases hv : s.value with
    | none => simp [attrStep, hv, dictGet_eq_none_of_keys attrs k h]
    | some v =>
      have h1 : attrStep attrs (some s) k = dictSet attrs k v := by
        simp [attrStep, hv]
      rw [h1, dictSet_eq_append attrs k v h, dictGet_append_self attrs k v h]
      simp [hv]

theorem dictGet_attrStep_ne (attrs : List (String × PyValue))
    (st : Option CardataState) (k kQ : String) (h : k ≠ kQ) :
    dictGet (attrStep attrs st k) kQ = dictGet attrs kQ := by
  cases st with
  | none => rfl
  | some s =>
    cases hv : s.value with
    | none => simp [attrStep, hv]
    | some v =>
      have h1 : attrStep attrs (some s) k = dictSet attrs k v := by
        simp [attrStep, hv]
      rw [h1]
      exact dictGet_dictSet_ne attrs k kQ v h

theorem attrStep_keys (attrs : List (String × PyValue)) (st : Option CardataState)
    (k kQ : String) (h : ∀ e ∈ attrs, e.1 ≠ kQ) (hk : k ≠ kQ) :
    ∀ e ∈ attrStep attrs st k, e.1 ≠ kQ := by
  cases st with
  | none => simpa [attrStep] using h
  | some s =>
    cases hv : s.value with
    | none => simpa [attrStep, hv] using h
    | some v =>
      have h1 : attrStep attrs (some s) k = dictSet attrs k v := by
        simp [attrStep, hv]
      rw [h1]
      unfold dictSet
      by_cases ha : attrs.any (fun e => e.1 == k) = true
      · rw [if_pos ha]
        intro e he
        obtain ⟨e0, he0, heq⟩ := List.mem_map.mp he
        by_cases h0 : (e0.1 == k) = true
        · rw [if_pos h0] at heq
          rw [← heq]
          exact h e0 he0
        · rw [if_neg h0] at heq
          rw [← heq]
          exact h e0 he0
      · rw [if_neg ha]
        intro e he
        rcases List.mem_append.mp he with h1 | h1
        · exact h e h1
        · rw [List.mem_singleton] at h1
          rw [h1]
          exact hk

/-- C6: provided the base attribute dictionary does not already use the
keys, the returned attributes bind `"direction"` to the stored heading
value exactly when a heading state with a non-`None` value exists, and
`"gps_accuracy"` to the stored fix-status value exactly when a
fix-status state with a non-`None` value exists; otherwise the key is
absent. -/
theorem extra_attrs_direction_gps (base : List (String × PyValue))
    (c : Coordinator) (vin : String)
    (hd : ∀ e ∈ base, e.1 ≠ "direction")
    (hg : ∀ e ∈ base, e.1 ≠ "gps_accuracy") :
    dictGet (extra_state_attributes base c vin) "direction" =
        (c.get_state vin HEADING_DESCRIPTOR).bind CardataState.value ∧
      dictGet (extra_state_attributes base c vin) "gps_accuracy" =
        (c.get_state vin GPS_FIX_STATUS_DESCRIPTOR).bind CardataState.value := by
  have hne : ("gps_accuracy" : String) ≠ "direction" := by decide
  constructor
  · rw [extra_state_attributes, dictGet_attrStep_ne _ _ _ _ hne]
    exact dictGet_attrStep_self base _ _ hd
  · rw [extra_state_attributes]
    exact dictGet_attrStep_self _ _ _
      (attrStep_keys base _ _ _ hg (fun hq => hne hq.symm))

/-- A coordinator caching a heading and a GPS fix status for one
vehicle. -/
def coordHeadingFix : Coordinator :=
  { states :=
      [("WBA6", HEADING_DESCRIPTOR, { value := some (PyValue.pyStr "180") }),
        ("WBA6", GPS_FIX_STATUS_DESCRIPTOR, { value := some (PyValue.pyStr "HIGH") })],
    descriptors := [("WBA6", HEADING_DESCRIPTOR)] }

/-- Witness for C6: with an empty base dictionary, `coordHeadingFix`
yields `"direction" = "180"` and `"gps_accuracy" = "HIGH"`. -/
theorem extra_attrs_direction_gps_witness :
    dictGet (extra_state_attributes [] coordHeadingFix "WBA6") "direction" =
        some (PyValue.pyStr "180") ∧
      dictGet (extra_state_attributes [] coordHeadingFix "WBA6") "gps_accuracy" =
        some (PyValue.pyStr "HIGH") := by
  have h := extra_attrs_direction_gps [] coordHeadingFix "WBA6"
    (by simp) (by simp)
  exact ⟨h.1.trans rfl, h.2.trans rfl⟩

end Cardata
